import Mathlib

/-!
Shallow embedding of the bgclean application (src/app.py): a catalog loader
over semicolon-separated CSV data, an image-source resolver (upload / SKU),
session-state bookkeeping, background removal dispatch and export encoding.
External libraries (pandas, PIL, requests, rembg, streamlit) are modelled as
explicit data or injected capability functions; the logic of app.py itself is
translated line by line.
-/

namespace BgClean

/-- Python str.strip default whitespace set (ASCII part; the app only deals
with ASCII headers and SKUs). -/
def isPySpace (c : Char) : Bool :=
  c = ' ' || c = '\t' || c = '\n' || c = '\x0d' || c = '\x0b' || c = '\x0c'

/-- Python `s.strip()`: drop leading and trailing whitespace. -/
def pyStrip (s : String) : String :=
  String.mk (((s.toList.dropWhile isPySpace).reverse.dropWhile isPySpace).reverse)

/-- Python `s.lower()` on the ASCII column names the app handles. -/
def pyLower (s : String) : String :=
  String.mk (s.toList.map Char.toLower)

-- Constants from app.py (lines 20-29).
def MAX_IMAGE_HEIGHT : Nat := 550
def DEFAULT_EXPECTED_COLUMNS : List String := ["sku", "image_url", "background_image_url"]
def FALLBACK_IMAGE_URL_COLUMN : String := "bild"
def FALLBACK_BACKGROUND_URL_COLUMN : String := "hintergrundbild"
def REQUESTS_TIMEOUT : Nat := 10
def EXPORT_FORMAT_PNG : String := "PNG (transparent background)"
def EXPORT_FORMAT_JPEG : String := "JPEG (white background)"

/-- A pandas cell: a string or a missing value (NaN/None). -/
abbrev Cell := Option String

/-- A pandas DataFrame as the app uses it: a list of column labels and rows of
cells aligned positionally with the labels. -/
structure DataFrame where
  columns : List String
  rows : List (List Cell)
deriving Repr, DecidableEq, Inhabited

/-- Index of the first column with the given label (pandas label lookup). -/
def colIndex (cols : List String) (name : String) : Option Nat :=
  match cols with
  | [] => none
  | c :: rest => if c = name then some 0 else (colIndex rest name).map (· + 1)

/-- The cell of `row` under column label `name`. -/
def DataFrame.cellAt (df : DataFrame) (row : List Cell) (name : String) : Cell :=
  match colIndex df.columns name with
  | some i => (row.get? i).getD none
  | none => none

/-- The column of values under label `name` (pandas `df[name]`). -/
def DataFrame.getCol (df : DataFrame) (name : String) : List Cell :=
  df.rows.map (fun r => df.cellAt r name)

/-- pandas `df[name] = vals`: replace the column if the label exists, else
append a new column on the right. -/
def DataFrame.setCol (df : DataFrame) (name : String) (vals : List Cell) : DataFrame :=
  match colIndex df.columns name with
  | some i => { df with rows := (df.rows.zip vals).map (fun p => p.1.set i p.2) }
  | none =>
    { columns := df.columns ++ [name],
      rows := (df.rows.zip vals).map (fun p => p.1 ++ [p.2]) }

/-- pandas `df.rename(columns={o: n})`: relabel every column named `o`. -/
def DataFrame.renameCol (df : DataFrame) (o n : String) : DataFrame :=
  { df with columns := df.columns.map (fun c => if c = o then n else c) }

/-- pandas `df[names]`: column projection in the given order. -/
def DataFrame.selectCols (df : DataFrame) (names : List String) : DataFrame :=
  { columns := names, rows := df.rows.map (fun r => names.map (fun n => df.cellAt r n)) }

/-- pandas `astype(str)` on a cell: missing values print as the string nan. -/
def astypeStr : Cell → String
  | none => "nan"
  | some s => s

/-- Outcome of `pd.read_csv(path, sep=..., encoding=..., dtype=...)`:
a parsed DataFrame, a missing file, or any other parse exception. -/
inductive CSVReadResult
  | ok (df : DataFrame)
  | fileNotFound
  | parseError (msg : String)

/-- The empty table `pd.DataFrame(columns=DEFAULT_EXPECTED_COLUMNS)` every
failure path of the loader returns. -/
def emptyDefaultDf : DataFrame := { columns := DEFAULT_EXPECTED_COLUMNS, rows := [] }

/-- app.py line 88: `df.columns = [str(col).strip().lower() for col in df.columns]`. -/
def normalize_columns (df : DataFrame) : DataFrame :=
  { df with columns := df.columns.map (fun col => pyLower (pyStrip col)) }

/-- app.py line 92: `df["sku"] = df["sku"].astype(str).str.strip()`. -/
def strip_sku_column (df : DataFrame) : DataFrame :=
  df.setCol "sku" ((df.getCol "sku").map (fun c => some (pyStrip (astypeStr c))))

/-- app.py lines 93-94: rename the German image-URL fallback column to the
canonical name when the canonical name is absent. -/
def rename_image_fallback (df : DataFrame) : DataFrame :=
  if !(df.columns.contains "image_url") && df.columns.contains FALLBACK_IMAGE_URL_COLUMN
  then df.renameCol FALLBACK_IMAGE_URL_COLUMN "image_url"
  else df

/-- app.py lines 95-96: likewise for the background-image URL column. -/
def rename_background_fallback (df : DataFrame) : DataFrame :=
  if !(df.columns.contains "background_image_url")
      && df.columns.contains FALLBACK_BACKGROUND_URL_COLUMN
  then df.renameCol FALLBACK_BACKGROUND_URL_COLUMN "background_image_url"
  else df

/-- app.py lines 93-96: both fallback renames, in source order. -/
def apply_fallback_renames (df : DataFrame) : DataFrame :=
  rename_background_fallback (rename_image_fallback df)

/-- app.py lines 98-99: one iteration of the loop that adds an absent
expected column filled with None. -/
def add_missing_col (d : DataFrame) (col : String) : DataFrame :=
  if !(d.columns.contains col) then d.setCol col (d.rows.map (fun _ => none)) else d

/-- app.py lines 97-99: add every absent expected column filled with None. -/
def fill_missing_expected (df : DataFrame) : DataFrame :=
  DEFAULT_EXPECTED_COLUMNS.foldl add_missing_col df

/-- app.py lines 79-106, `load_sku_data`: returns the resulting DataFrame
together with the list of error messages emitted via st.error. -/
def load_sku_data (path : String) (read_result : CSVReadResult) :
    DataFrame × List String :=
  match read_result with
  | .fileNotFound =>
    (emptyDefaultDf, ["Error: The SKU data file " ++ path ++ " was not found."])
  | .parseError e =>
    (emptyDefaultDf, ["An error occurred while loading the SKU data from " ++ path ++ ": " ++ e])
  | .ok raw =>
    let df := normalize_columns raw
    if !(df.columns.contains "sku") then
      (emptyDefaultDf,
       ["Error: The CSV file at " ++ path ++ " must contain a sku column for product identification."])
    else
      ((fill_missing_expected (apply_fallback_renames (strip_sku_column df))).selectCols
          DEFAULT_EXPECTED_COLUMNS,
       [])

/-! ## Images, capabilities and the image-source resolver -/

/-- Raw encoded image bytes. -/
abbrev Bytes := List Nat

/-- One RGBA pixel (PIL mode RGBA, four 8-bit channels). -/
structure RGBA where
  r : Nat
  g : Nat
  b : Nat
  a : Nat
deriving Repr, DecidableEq, Inhabited

/-- One RGB pixel (PIL mode RGB: no alpha channel exists in this type). -/
structure RGB where
  r : Nat
  g : Nat
  b : Nat
deriving Repr, DecidableEq, Inhabited

/-- A decoded PIL image in RGBA mode: dimensions plus row-major pixels. -/
structure PILImage where
  width : Nat
  height : Nat
  pixels : List RGBA
deriving Repr, DecidableEq, Inhabited

/-- A PIL image in RGB mode (JPEG has no alpha channel). -/
structure RGBImage where
  width : Nat
  height : Nat
  pixels : List RGB
deriving Repr, DecidableEq, Inhabited

/-- PIL `image.size`: (width, height). -/
def PILImage.size (img : PILImage) : Nat × Nat := (img.width, img.height)

/-- Errors of `requests.get` as the app distinguishes them: a network-level
RequestException, or a non-success HTTP status surfaced by raise_for_status. -/
inductive FetchError
  | network (msg : String)
  | httpStatus (code : Nat)
deriving Repr, DecidableEq

/-- External capabilities the app consumes as opaque collaborators (spec
section 1): image decoding to RGBA, HTTP fetching, the rembg removal routine,
and the PIL resampling kernel used by resize. -/
structure Caps where
  decodeRGBA : Bytes → Option PILImage
  fetch : String → Nat → Except FetchError Bytes
  removeBg : Bytes → Except String Bytes
  resample : PILImage → Nat → Nat → List RGBA

/-- PIL `image.resize((w, h))`: new dimensions, resampled pixel content. -/
def PILImage.resizeTo (resample : PILImage → Nat → Nat → List RGBA)
    (img : PILImage) (w h : Nat) : PILImage :=
  { width := w, height := h, pixels := resample img w h }

/-- app.py lines 108-113, `resize_image`. In the source `new_width` is
`int(width * max_height / height)`; for non-negative operands int() of the
quotient is floor division, i.e. Nat division. -/
def resize_image (resample : PILImage → Nat → Nat → List RGBA)
    (image : PILImage) (max_height : Nat := MAX_IMAGE_HEIGHT) : PILImage :=
  let width := image.size.1
  let height := image.size.2
  if height > max_height then
    let new_width := width * max_height / height
    image.resizeTo resample new_width max_height
  else image

/-- app.py lines 128-140, `load_image_from_upload`: read the bytes of the
uploaded file (when one is present) and decode them to RGBA; both the image
and the raw bytes are returned, or nothing on a decode failure. -/
def load_image_from_upload (caps : Caps) (uploaded_file : Option Bytes) :
    Option (PILImage × Bytes) :=
  match uploaded_file with
  | some image_bytes =>
    match caps.decodeRGBA image_bytes with
    | some image => some (image, image_bytes)
    | none => none
  | none => none

/-- app.py line 149: `sku_df[sku_df["sku"] == sku]`, the rows whose sku cell
equals the input string exactly. -/
def sku_matches (sku_df : DataFrame) (sku : String) : List (List Cell) :=
  sku_df.rows.filter (fun row => sku_df.cellAt row "sku" == some sku)

/-- app.py lines 153-176: given the first matching catalog row, validate its
image URL, fetch it with the 10-second timeout, and decode the body as RGBA;
`none` models every caught error path (blank URL, RequestException,
raise_for_status, decode exception). -/
def fetch_row_image (caps : Caps) (sku_df : DataFrame) (row : List Cell) :
    Option (PILImage × Bytes) :=
  match sku_df.cellAt row "image_url" with
  | none => none
  | some u =>
    if pyStrip u = "" then none
    else
      match caps.fetch (pyStrip u) REQUESTS_TIMEOUT with
      | .error _ => none
      | .ok image_bytes =>
        match caps.decodeRGBA image_bytes with
        | some image => some (image, image_bytes)
        | none => none

/-- app.py lines 142-176, `load_image_from_sku`. -/
def load_image_from_sku (caps : Caps) (sku : String) (sku_df : DataFrame) :
    Option (PILImage × Bytes) :=
  if sku = "" then none
  else if sku_df.rows.isEmpty || !(sku_df.columns.contains "sku")
      || !(sku_df.columns.contains "image_url") then none
  else
    match sku_matches sku_df sku with
    | [] => none
    | row :: _ => fetch_row_image caps sku_df row

/-- app.py lines 178-192, `process_background_removal`: empty byte payloads
are rejected; a failure of the removal capability or of decoding its result
is caught and yields nothing; on success the result is decoded as RGBA. -/
def process_background_removal (caps : Caps) (image_bytes : Bytes) :
    Option PILImage :=
  if image_bytes.isEmpty then none
  else
    match caps.removeBg image_bytes with
    | .error _ => none
    | .ok removed_bg_bytes => caps.decodeRGBA removed_bg_bytes

/-! ## Export encoding (main, lines 327-339) -/

/-- PIL `Image.new("RGB", size, "WHITE")`: an opaque white RGB canvas. -/
def newWhiteRGB (w h : Nat) : RGBImage :=
  { width := w, height := h, pixels := List.replicate (w * h) ⟨255, 255, 255⟩ }

/-- One channel of PIL paste-with-mask blending: the source is composited
over the background with the 8-bit mask value as the blend weight. -/
def blendChannel (fg bg a : Nat) : Nat := (fg * a + bg * (255 - a)) / 255

/-- PIL `canvas.paste(src, (0,0), src)`: paste an RGBA image onto an RGB canvas
of the same dimensions using its own alpha band as the mask. -/
def pasteWithAlpha (canvas : RGBImage) (src : PILImage) : RGBImage :=
  { canvas with
    pixels := (canvas.pixels.zip src.pixels).map
      (fun p =>
        { r := blendChannel p.2.r p.1.r p.2.a,
          g := blendChannel p.2.g p.1.g p.2.a,
          b := blendChannel p.2.b p.1.b p.2.a }) }

/-- The encoded bytes written to the output buffer: `save(format="PNG")`
keeps the RGBA image, `save(format="JPEG")` encodes an RGB image, which by
construction carries no alpha channel. -/
inductive EncodedImage
  | png (img : PILImage)
  | jpeg (img : RGBImage)
deriving Repr, DecidableEq

/-- What main hands to the download link for the processed image. -/
structure ExportResult where
  data : EncodedImage
  mime : String
  file_extension : String
deriving Repr, DecidableEq

/-- app.py lines 327-339: the export branch of the Remove Background
handler, keyed on the radio choice string. -/
def exportProcessed (processed_image : PILImage) (export_format_choice : String) :
    ExportResult :=
  if export_format_choice = EXPORT_FORMAT_JPEG then
    let final_image_for_export :=
      pasteWithAlpha (newWhiteRGB processed_image.size.1 processed_image.size.2)
        processed_image
    { data := .jpeg final_image_for_export, mime := "image/jpeg", file_extension := "jpg" }
  else
    { data := .png processed_image, mime := "image/png", file_extension := "png" }

/-! ## Session state and the event step function (main, lines 195-353) -/

/-- The session_state keys the app manages (lines 196-198). -/
structure AppState where
  current_image : Option PILImage
  current_image_bytes : Option Bytes
  current_sku : Option String
  sku_input_text : String
  last_uploaded_file_id : Option Nat
deriving Repr, DecidableEq, Inhabited

/-- The state of a fresh session after the defaults of lines 195-202 are
installed: every key gets its default. -/
def initial_session_state : AppState :=
  { current_image := none, current_image_bytes := none, current_sku := none,
    sku_input_text := "", last_uploaded_file_id := none }

/-- app.py lines 204-208, `update_session_data`: image, bytes and sku are
always written together; sku_input_text mirrors the sku (empty when absent). -/
def update_session_data (s : AppState) (image : Option PILImage)
    (image_bytes : Option Bytes) (sku : Option String) : AppState :=
  { s with current_image := image, current_image_bytes := image_bytes,
           current_sku := sku, sku_input_text := sku.getD "" }

/-- app.py lines 210-213, `clear_session_image_data`. -/
def clear_session_image_data (s : AppState) : AppState :=
  { s with current_image := none, current_image_bytes := none, current_sku := none }

/-- The user actions that mutate or read session state on a rerun of main. -/
inductive Event
  | uploadFile (fileId : Nat) (contents : Bytes)
  | skuTextChanged (newText : String)
  | loadSkuButton
  | removeBgButton
deriving Repr, DecidableEq

/-- main, lines 254-259: a file sits in the uploader; it is processed only
when its id differs from the last processed one, and session data is
replaced only when decoding succeeds. -/
def handle_upload (caps : Caps) (s : AppState) (fileId : Nat) (contents : Bytes) :
    AppState :=
  if some fileId ≠ s.last_uploaded_file_id then
    let s1 := { s with last_uploaded_file_id := some fileId }
    match load_image_from_upload caps (some contents) with
    | some p => update_session_data s1 (some p.1) (some p.2) none
    | none => s1
  else s

/-- main, lines 263-266, `sync_sku_input_text`: typing in the SKU box clears
the current image when it did not come from a SKU. -/
def sync_sku_input_text (s : AppState) (newText : String) : AppState :=
  let s1 := { s with sku_input_text := newText }
  if s1.current_image.isSome && s1.current_sku.isNone then
    clear_session_image_data s1
  else s1

/-- main, lines 272-280: the Load-by-SKU button. The session image data is
cleared before the load is attempted (line 275), and set again only on
success. -/
def handle_load_sku (caps : Caps) (sku_df : DataFrame) (s : AppState) : AppState :=
  let sku_to_load := pyStrip s.sku_input_text
  if sku_to_load ≠ "" then
    let s1 := clear_session_image_data s
    match load_image_from_sku caps sku_to_load sku_df with
    | some p => update_session_data s1 (some p.1) (some p.2) (some sku_to_load)
    | none => s1
  else s

/-- main, lines 318-353: the Remove Background button. The section is only
rendered with a current image; empty or absent bytes report an error; no
session_state key is written on any path, and on success the processed image
is exported per the radio choice. -/
def handle_remove_bg (caps : Caps) (export_format_choice : String) (s : AppState) :
    AppState × Option (PILImage × ExportResult) :=
  if s.current_image.isSome then
    match s.current_image_bytes with
    | some b =>
      if b.isEmpty then (s, none)
      else
        match process_background_removal caps b with
        | some processed_image =>
          (s, some (processed_image, exportProcessed processed_image export_format_choice))
        | none => (s, none)
    | none => (s, none)
  else (s, none)

/-- One rerun of main handling one user action. -/
def step (caps : Caps) (sku_df : DataFrame) (choice : String) (s : AppState) :
    Event → AppState
  | .uploadFile fid contents => handle_upload caps s fid contents
  | .skuTextChanged t => sync_sku_input_text s t
  | .loadSkuButton => handle_load_sku caps sku_df s
  | .removeBgButton => (handle_remove_bg caps choice s).1

/-- The (image, bytes, sku) portion of the session state. -/
def sessionTriple (s : AppState) :
    Option PILImage × Option Bytes × Option String :=
  (s.current_image, s.current_image_bytes, s.current_sku)

/-- Ghost provenance of the current image, tracked alongside the state to
express where the session image came from. -/
inductive ImageSource
  | noImage
  | fromUpload
  | fromCatalog
deriving Repr, DecidableEq

/-- Ghost tracking of provenance across one step: set on the branches of the
step function that install or clear the session image. -/
def sourceStep (caps : Caps) (sku_df : DataFrame) (g : AppState × ImageSource) :
    Event → ImageSource
  | .uploadFile fid contents =>
    if (some fid ≠ g.1.last_uploaded_file_id)
        ∧ (load_image_from_upload caps (some contents)).isSome
    then .fromUpload else g.2
  | .skuTextChanged _ =>
    if g.1.current_image.isSome && g.1.current_sku.isNone then .noImage else g.2
  | .loadSkuButton =>
    if pyStrip g.1.sku_input_text ≠ "" then
      if (load_image_from_sku caps (pyStrip g.1.sku_input_text) sku_df).isSome
      then .fromCatalog else .noImage
    else g.2
  | .removeBgButton => g.2

/-- The step function on provenance-instrumented states. -/
def gstep (caps : Caps) (sku_df : DataFrame) (choice : String)
    (g : AppState × ImageSource) (e : Event) : AppState × ImageSource :=
  (step caps sku_df choice g.1 e, sourceStep caps sku_df g e)

/-- States reachable from a fresh session. -/
inductive Reachable (caps : Caps) (sku_df : DataFrame) (choice : String) :
    AppState × ImageSource → Prop
  | init : Reachable caps sku_df choice (initial_session_state, .noImage)
  | next {g : AppState × ImageSource} {e : Event} :
      Reachable caps sku_df choice g →
      Reachable caps sku_df choice (gstep caps sku_df choice g e)

/-- The session invariant: a set SKU means the image came from the catalog,
image and bytes are present together, and a set SKU implies a present image. -/
def SessionInv (g : AppState × ImageSource) : Prop :=
  (g.1.current_sku.isSome → g.2 = ImageSource.fromCatalog)
  ∧ (g.1.current_image.isSome ↔ g.1.current_image_bytes.isSome)
  ∧ (g.1.current_sku.isSome → g.1.current_image.isSome)

/-- A rectangular DataFrame: every row as long as the column list. -/
def DataFrame.WellFormed (df : DataFrame) : Prop :=
  ∀ r ∈ df.rows, r.length = df.columns.length

/-! ## Concrete demonstration data used by witnesses and counterexamples -/

/-- A raw catalog as read_csv would deliver it: unnormalized headers, a
fallback image column, and spurious whitespace around one SKU. -/
def catalogRaw : DataFrame :=
  { columns := [" SKU ", "Bild"],
    rows := [[some " 123 ", some "http://x/a.png"], [some "abc", some "u"]] }

/-- The catalog after loading `catalogRaw`. -/
def catalogDf : DataFrame := (load_sku_data "banner_bilder_v1.csv" (.ok catalogRaw)).1

/-- A one-pixel decoded image. -/
def demoImage : PILImage := { width := 1, height := 1, pixels := [⟨0, 0, 0, 255⟩] }

/-- Capabilities whose external calls all succeed. -/
def capsOk : Caps :=
  { decodeRGBA := fun _ => some demoImage,
    fetch := fun _ _ => Except.ok [1],
    removeBg := fun b => Except.ok b,
    resample := fun i _ _ => i.pixels }

/-- Capabilities whose image decoding fails (a corrupted upload). -/
def capsDecodeFail : Caps := { capsOk with decodeRGBA := fun _ => none }

/-- A session holding an image that arrived through a direct upload. -/
def stateAfterUpload : AppState :=
  { current_image := some demoImage, current_image_bytes := some [7],
    current_sku := none, sku_input_text := "", last_uploaded_file_id := some 1 }

/-! ## General lemmas about the DataFrame embedding -/

theorem colIndex_eq_none_iff (cols : List String) (name : String) :
    colIndex cols name = none ↔ name ∉ cols := by
  induction cols with
  | nil => simp [colIndex]
  | cons c rest ih =>
    by_cases h : c = name
    · simp [colIndex, h]
    · simp only [colIndex, if_neg h, Option.map_eq_none', ih, List.mem_cons]
      constructor
      · intro hn hor
        rcases hor with h1 | h2
        · exact h h1.symm
        · exact hn h2
      · intro hn hmem
        exact hn (Or.inr hmem)

theorem mem_of_colIndex_some {cols : List String} {name : String} {i : Nat}
    (h : colIndex cols name = some i) : name ∈ cols := by
  by_contra hmem
  rw [(colIndex_eq_none_iff cols name).mpr hmem] at h
  exact Option.noConfusion h

theorem cellAt_some_mem {df : DataFrame} {r : List Cell} {name u : String}
    (h : df.cellAt r name = some u) : name ∈ df.columns := by
  unfold DataFrame.cellAt at h
  cases hidx : colIndex df.columns name with
  | none => rw [hidx] at h; exact absurd h (by simp)
  | some i => exact mem_of_colIndex_some hidx

theorem colIndex_rename_other (cols : List String) (o n q : String)
    (hq1 : q ≠ o) (hq2 : q ≠ n) :
    colIndex (cols.map (fun c => if c = o then n else c)) q = colIndex cols q := by
  induction cols with
  | nil => simp [colIndex]
  | cons c rest ih =>
    have hnq : ¬ (n = q) := fun hh => hq2 hh.symm
    by_cases h : c = o
    · subst h
      have hoq : ¬ (c = q) := fun hh => hq1 hh.symm
      simp [colIndex, hnq, hoq, ih]
    · by_cases hcq : c = q
      · subst hcq
        simp [colIndex, h]
      · simp [colIndex, h, hcq, ih]

theorem colIndex_rename_new (cols : List String) (o n : String)
    (hn : n ∉ cols) :
    colIndex (cols.map (fun c => if c = o then n else c)) n = colIndex cols o := by
  induction cols with
  | nil => simp [colIndex]
  | cons c rest ih =>
    have hcn : ¬ (c = n) := fun hh => hn (hh ▸ List.mem_cons_self c rest)
    have hrest : n ∉ rest := fun hh => hn (List.mem_cons_of_mem c hh)
    by_cases h : c = o
    · subst h
      simp [colIndex]
    · simp [colIndex, h, hcn, ih hrest]

theorem not_mem_rename_old (cols : List String) (o n : String) (hon : o ≠ n) :
    o ∉ cols.map (fun c => if c = o then n else c) := by
  intro hmem
  rcases List.mem_map.mp hmem with ⟨c, _, hc⟩
  by_cases h : c = o
  · rw [if_pos h] at hc
    exact hon hc.symm
  · rw [if_neg h] at hc
    exact h hc

theorem mem_rename_new (cols : List String) (o n : String) (ho : o ∈ cols) :
    n ∈ cols.map (fun c => if c = o then n else c) :=
  List.mem_map.mpr ⟨o, ho, by simp⟩

theorem mem_rename_other (cols : List String) (o n q : String)
    (hq1 : q ≠ o) (hq2 : q ≠ n) :
    q ∈ cols.map (fun c => if c = o then n else c) ↔ q ∈ cols := by
  constructor
  · intro hmem
    rcases List.mem_map.mp hmem with ⟨c, hc, heq⟩
    by_cases h : c = o
    · rw [if_pos h] at heq
      exact absurd heq.symm hq2
    · rw [if_neg h] at heq
      exact heq ▸ hc
  · intro hmem
    refine List.mem_map.mpr ⟨q, hmem, ?_⟩
    rw [if_neg hq1]

theorem cellAt_rename_other (df : DataFrame) (r : List Cell) (o n q : String)
    (hq1 : q ≠ o) (hq2 : q ≠ n) :
    (df.renameCol o n).cellAt r q = df.cellAt r q := by
  unfold DataFrame.cellAt DataFrame.renameCol
  rw [colIndex_rename_other df.columns o n q hq1 hq2]

theorem cellAt_rename_new (df : DataFrame) (r : List Cell) (o n : String)
    (hn : n ∉ df.columns) :
    (df.renameCol o n).cellAt r n = df.cellAt r o := by
  unfold DataFrame.cellAt DataFrame.renameCol
  rw [colIndex_rename_new df.columns o n hn]

theorem getCol_rename_other (df : DataFrame) (o n q : String)
    (hq1 : q ≠ o) (hq2 : q ≠ n) :
    (df.renameCol o n).getCol q = df.getCol q := by
  unfold DataFrame.getCol
  exact List.map_congr_left (fun r _ => cellAt_rename_other df r o n q hq1 hq2)

theorem getCol_rename_new (df : DataFrame) (o n : String)
    (hn : n ∉ df.columns) :
    (df.renameCol o n).getCol n = df.getCol o := by
  unfold DataFrame.getCol
  exact List.map_congr_left (fun r _ => cellAt_rename_new df r o n hn)

theorem rename_image_fallback_fires (df : DataFrame)
    (h1 : "image_url" ∉ df.columns) (h2 : FALLBACK_IMAGE_URL_COLUMN ∈ df.columns) :
    rename_image_fallback df = df.renameCol FALLBACK_IMAGE_URL_COLUMN "image_url" := by
  simp [rename_image_fallback, h1, h2]

theorem rename_image_fallback_skips (df : DataFrame)
    (h : "image_url" ∈ df.columns) :
    rename_image_fallback df = df := by
  simp [rename_image_fallback, h]

theorem rename_image_fallback_mem (df : DataFrame) (q : String)
    (hq1 : q ≠ FALLBACK_IMAGE_URL_COLUMN) (hq2 : q ≠ "image_url") :
    q ∈ (rename_image_fallback df).columns ↔ q ∈ df.columns := by
  unfold rename_image_fallback
  split
  · exact mem_rename_other df.columns _ _ q hq1 hq2
  · exact Iff.rfl

theorem rename_image_fallback_getCol (df : DataFrame) (q : String)
    (hq1 : q ≠ FALLBACK_IMAGE_URL_COLUMN) (hq2 : q ≠ "image_url") :
    (rename_image_fallback df).getCol q = df.getCol q := by
  unfold rename_image_fallback
  split
  · exact getCol_rename_other df _ _ q hq1 hq2
  · rfl


theorem rename_background_fallback_fires (df : DataFrame)
    (h1 : "background_image_url" ∉ df.columns)
    (h2 : FALLBACK_BACKGROUND_URL_COLUMN ∈ df.columns) :
    rename_background_fallback df
      = df.renameCol FALLBACK_BACKGROUND_URL_COLUMN "background_image_url" := by
  simp [rename_background_fallback, h1, h2]

theorem rename_background_fallback_skips (df : DataFrame)
    (h : "background_image_url" ∈ df.columns) :
    rename_background_fallback df = df := by
  simp [rename_background_fallback, h]

theorem rename_background_fallback_mem (df : DataFrame) (q : String)
    (hq1 : q ≠ FALLBACK_BACKGROUND_URL_COLUMN) (hq2 : q ≠ "background_image_url") :
    q ∈ (rename_background_fallback df).columns ↔ q ∈ df.columns := by
  unfold rename_background_fallback
  split
  · exact mem_rename_other df.columns _ _ q hq1 hq2
  · exact Iff.rfl

theorem rename_background_fallback_getCol (df : DataFrame) (q : String)
    (hq1 : q ≠ FALLBACK_BACKGROUND_URL_COLUMN) (hq2 : q ≠ "background_image_url") :
    (rename_background_fallback df).getCol q = df.getCol q := by
  unfold rename_background_fallback
  split
  · exact getCol_rename_other df _ _ q hq1 hq2
  · rfl

/-- C8: when the canonical image_url (resp. background_image_url) column is
absent after header normalization and the fallback bild (resp.
hintergrundbild) column is present, the loader renames the fallback column to
the canonical name (the canonical name appears, the fallback name disappears,
and the canonical column now holds the fallback data); when the canonical
column is present the fallback column is not renamed and the canonical data
is untouched. -/
theorem fallback_rename_spec (df : DataFrame) :
    ("image_url" ∉ df.columns → FALLBACK_IMAGE_URL_COLUMN ∈ df.columns →
      "image_url" ∈ (apply_fallback_renames df).columns
      ∧ FALLBACK_IMAGE_URL_COLUMN ∉ (apply_fallback_renames df).columns
      ∧ (apply_fallback_renames df).getCol "image_url"
          = df.getCol FALLBACK_IMAGE_URL_COLUMN)
    ∧ ("image_url" ∈ df.columns →
      (apply_fallback_renames df).getCol "image_url" = df.getCol "image_url"
      ∧ (FALLBACK_IMAGE_URL_COLUMN ∈ (apply_fallback_renames df).columns
          ↔ FALLBACK_IMAGE_URL_COLUMN ∈ df.columns))
    ∧ ("background_image_url" ∉ df.columns →
        FALLBACK_BACKGROUND_URL_COLUMN ∈ df.columns →
      "background_image_url" ∈ (apply_fallback_renames df).columns
      ∧ FALLBACK_BACKGROUND_URL_COLUMN ∉ (apply_fallback_renames df).columns
      ∧ (apply_fallback_renames df).getCol "background_image_url"
          = df.getCol FALLBACK_BACKGROUND_URL_COLUMN)
    ∧ ("background_image_url" ∈ df.columns →
      (apply_fallback_renames df).getCol "background_image_url"
          = df.getCol "background_image_url"
      ∧ (FALLBACK_BACKGROUND_URL_COLUMN ∈ (apply_fallback_renames df).columns
          ↔ FALLBACK_BACKGROUND_URL_COLUMN ∈ df.columns)) := by
  refine ⟨?_, ?_, ?_, ?_⟩
  · intro himg hbild
    have hfire := rename_image_fallback_fires df himg hbild
    set df2 := rename_image_fallback df with hdf2
    have hmem2 : "image_url" ∈ df2.columns := by
      rw [hfire]
      exact mem_rename_new df.columns _ _ hbild
    have hbild2 : FALLBACK_IMAGE_URL_COLUMN ∉ df2.columns := by
      rw [hfire]
      exact not_mem_rename_old df.columns _ _ (by decide)
    have hgc2 : df2.getCol "image_url" = df.getCol FALLBACK_IMAGE_URL_COLUMN := by
      rw [hfire]
      exact getCol_rename_new df _ _ himg
    refine ⟨?_, ?_, ?_⟩
    · exact (rename_background_fallback_mem df2 "image_url" (by decide) (by decide)).mpr hmem2
    · intro hmem
      exact hbild2 ((rename_background_fallback_mem df2 FALLBACK_IMAGE_URL_COLUMN
        (by decide) (by decide)).mp hmem)
    · rw [show apply_fallback_renames df = rename_background_fallback df2 from rfl,
        rename_background_fallback_getCol df2 "image_url" (by decide) (by decide), hgc2]
  · intro himg
    have hskip := rename_image_fallback_skips df himg
    have heq : apply_fallback_renames df = rename_background_fallback df := by
      unfold apply_fallback_renames
      rw [hskip]
    refine ⟨?_, ?_⟩
    · rw [heq]
      exact rename_background_fallback_getCol df "image_url" (by decide) (by decide)
    · rw [heq]
      exact rename_background_fallback_mem df FALLBACK_IMAGE_URL_COLUMN (by decide) (by decide)
  · intro hbg hhgb
    set df2 := rename_image_fallback df with hdf2
    have hbg2 : "background_image_url" ∉ df2.columns := fun hh =>
      hbg ((rename_image_fallback_mem df "background_image_url" (by decide) (by decide)).mp hh)
    have hhgb2 : FALLBACK_BACKGROUND_URL_COLUMN ∈ df2.columns :=
      (rename_image_fallback_mem df FALLBACK_BACKGROUND_URL_COLUMN (by decide) (by decide)).mpr hhgb
    have hgc2 : df2.getCol FALLBACK_BACKGROUND_URL_COLUMN
        = df.getCol FALLBACK_BACKGROUND_URL_COLUMN :=
      rename_image_fallback_getCol df FALLBACK_BACKGROUND_URL_COLUMN (by decide) (by decide)
    have hfire := rename_background_fallback_fires df2 hbg2 hhgb2
    have heq : apply_fallback_renames df
        = df2.renameCol FALLBACK_BACKGROUND_URL_COLUMN "background_image_url" := by
      unfold apply_fallback_renames
      rw [← hdf2, hfire]
    refine ⟨?_, ?_, ?_⟩
    · rw [heq]
      exact mem_rename_new df2.columns _ _ hhgb2
    · rw [heq]
      exact not_mem_rename_old df2.columns _ _ (by decide)
    · rw [heq, getCol_rename_new df2 _ _ hbg2, hgc2]
  · intro hbg
    set df2 := rename_image_fallback df with hdf2
    have hbg2 : "background_image_url" ∈ df2.columns :=
      (rename_image_fallback_mem df "background_image_url" (by decide) (by decide)).mpr hbg
    have hskip := rename_background_fallback_skips df2 hbg2
    have heq : apply_fallback_renames df = df2 := by
      unfold apply_fallback_renames
      rw [← hdf2, hskip]
    refine ⟨?_, ?_⟩
    · rw [heq]
      exact rename_image_fallback_getCol df "background_image_url" (by decide) (by decide)
    · rw [heq]
      exact rename_image_fallback_mem df FALLBACK_BACKGROUND_URL_COLUMN (by decide) (by decide)

theorem load_image_from_sku_eq_fetch (caps : Caps) (sku_df : DataFrame) (sku : String)
    (row : List Cell) (rest : List (List Cell))
    (hne : sku ≠ "") (hmatch : sku_matches sku_df sku = row :: rest) :
    load_image_from_sku caps sku sku_df = fetch_row_image caps sku_df row := by
  have hrow : row ∈ sku_df.rows ∧ sku_df.cellAt row "sku" = some sku := by
    have hm : row ∈ sku_matches sku_df sku := by
      rw [hmatch]
      exact List.mem_cons_self _ _
    simpa [sku_matches, List.mem_filter] using hm
  have hskucol : "sku" ∈ sku_df.columns := cellAt_some_mem hrow.2
  have hnonempty : sku_df.rows.isEmpty = false := by
    cases hr : sku_df.rows with
    | nil => rw [hr] at hrow; exact absurd hrow.1 (List.not_mem_nil row)
    | cons a l => rfl
  by_cases himg : "image_url" ∈ sku_df.columns
  · unfold load_image_from_sku
    rw [if_neg hne]
    have hguard : (sku_df.rows.isEmpty || !(sku_df.columns.contains "sku")
        || !(sku_df.columns.contains "image_url")) = false := by
      simp [hnonempty, hskucol, himg]
    rw [hguard]
    simp only [Bool.false_eq_true, if_false, hmatch]
  · have hcell : sku_df.cellAt row "image_url" = none := by
      unfold DataFrame.cellAt
      rw [(colIndex_eq_none_iff sku_df.columns "image_url").mpr himg]
    have hguard : (sku_df.rows.isEmpty || !(sku_df.columns.contains "sku")
        || !(sku_df.columns.contains "image_url")) = true := by
      simp [himg]
    unfold load_image_from_sku
    rw [if_neg hne, hguard]
    simp [fetch_row_image, hcell]


/-- C4: resolving an image from a SKU fails (returns none, with neither image
nor bytes) when the input SKU is empty, when no catalog row matches, when the
matching row has a missing or blank image URL, or when the HTTP fetch (made
with the 10-second REQUESTS_TIMEOUT) reports a network error or non-success
status; on success it returns the decoded RGBA image together with the raw
fetched bytes, and a some-result always carries exactly the fetched bytes and
their decoding, so no partial result is committed. -/
theorem load_image_from_sku_spec (caps : Caps) (sku_df : DataFrame) (sku : String) :
    REQUESTS_TIMEOUT = 10
    ∧ (sku = "" → load_image_from_sku caps sku sku_df = none)
    ∧ (sku_matches sku_df sku = [] → load_image_from_sku caps sku sku_df = none)
    ∧ (∀ row rest, sku ≠ "" → sku_matches sku_df sku = row :: rest →
        (sku_df.cellAt row "image_url" = none →
            load_image_from_sku caps sku sku_df = none)
        ∧ (∀ u, sku_df.cellAt row "image_url" = some u → pyStrip u = "" →
            load_image_from_sku caps sku sku_df = none)
        ∧ (∀ u e, sku_df.cellAt row "image_url" = some u →
            caps.fetch (pyStrip u) REQUESTS_TIMEOUT = .error e →
            load_image_from_sku caps sku sku_df = none)
        ∧ (∀ u bytes img, sku_df.cellAt row "image_url" = some u → pyStrip u ≠ "" →
            caps.fetch (pyStrip u) REQUESTS_TIMEOUT = .ok bytes →
            caps.decodeRGBA bytes = some img →
            load_image_from_sku caps sku sku_df = some (img, bytes)))
    ∧ (∀ img bytes, load_image_from_sku caps sku sku_df = some (img, bytes) →
        caps.decodeRGBA bytes = some img
        ∧ ∃ url, caps.fetch url REQUESTS_TIMEOUT = .ok bytes) := by
  refine ⟨rfl, ?_, ?_, ?_, ?_⟩
  · intro h
    simp [load_image_from_sku, h]
  · intro hm
    by_cases h1 : sku = ""
    · simp [load_image_from_sku, h1]
    · unfold load_image_from_sku
      rw [if_neg h1]
      split
      · rfl
      · rw [hm]
  · intro row rest hne hmatch
    have heq := load_image_from_sku_eq_fetch caps sku_df sku row rest hne hmatch
    refine ⟨?_, ?_, ?_, ?_⟩
    · intro hcell
      rw [heq]
      simp [fetch_row_image, hcell]
    · intro u hcell hstrip
      rw [heq]
      simp [fetch_row_image, hcell, hstrip]
    · intro u e hcell hfetch
      rw [heq]
      by_cases hb : pyStrip u = ""
      · simp [fetch_row_image, hcell, hb]
      · simp [fetch_row_image, hcell, hb, hfetch]
    · intro u bytes img hcell hb hfetch hdec
      rw [heq]
      simp [fetch_row_image, hcell, hb, hfetch, hdec]
  · intro img bytes hres
    unfold load_image_from_sku at hres
    split at hres
    · exact absurd hres (by simp)
    · split at hres
      · exact absurd hres (by simp)
      · split at hres
        · exact absurd hres (by simp)
        · unfold fetch_row_image at hres
          split at hres
          · exact absurd hres (by simp)
          · split at hres
            · exact absurd hres (by simp)
            · split at hres
              · exact absurd hres (by simp)
              · split at hres
                · rename_i image_bytes hfetch xdec image hdec
                  rw [Option.some.injEq, Prod.mk.injEq] at hres
                  obtain ⟨h1, h2⟩ := hres
                  subst h1
                  subst h2
                  exact ⟨hdec, ⟨_, hfetch⟩⟩
                · exact absurd hres (by simp)

theorem remove_bg_preserves_state (caps : Caps) (choice : String) (s : AppState) :
    (handle_remove_bg caps choice s).1 = s := by
  unfold handle_remove_bg
  split
  · split
    · split
      · rfl
      · split <;> rfl
    · rfl
  · rfl

theorem step_wholesale (caps : Caps) (sku_df : DataFrame) (choice : String)
    (s : AppState) (e : Event) :
    sessionTriple (step caps sku_df choice s e) = sessionTriple s
    ∨ sessionTriple (step caps sku_df choice s e) = (none, none, none)
    ∨ ∃ img b k, sessionTriple (step caps sku_df choice s e) = (some img, some b, k) := by
  cases e with
  | uploadFile fid c =>
    simp only [step, handle_upload]
    split
    · cases hl : load_image_from_upload caps (some c) with
      | none => left; rfl
      | some p => right; right; exact ⟨p.1, p.2, none, rfl⟩
    · left; rfl
  | skuTextChanged t =>
    simp only [step, sync_sku_input_text]
    split
    · right; left; rfl
    · left; rfl
  | loadSkuButton =>
    simp only [step, handle_load_sku]
    split
    · cases hl : load_image_from_sku caps (pyStrip s.sku_input_text) sku_df with
      | none => right; left; rfl
      | some p =>
        right; right
        exact ⟨p.1, p.2, some (pyStrip s.sku_input_text), rfl⟩
    · left; rfl
  | removeBgButton =>
    left
    simp only [step]
    rw [remove_bg_preserves_state]

theorem step_upload_success (caps : Caps) (sku_df : DataFrame) (choice : String)
    (s : AppState) (fid : Nat) (c : Bytes) (img : PILImage) (b : Bytes)
    (hid : some fid ≠ s.last_uploaded_file_id)
    (hl : load_image_from_upload caps (some c) = some (img, b)) :
    sessionTriple (step caps sku_df choice s (.uploadFile fid c))
      = (some img, some b, none) := by
  simp only [step, handle_upload]
  rw [if_pos hid, hl]
  rfl

theorem step_sku_success (caps : Caps) (sku_df : DataFrame) (choice : String)
    (s : AppState) (img : PILImage) (b : Bytes)
    (hne : pyStrip s.sku_input_text ≠ "")
    (hl : load_image_from_sku caps (pyStrip s.sku_input_text) sku_df = some (img, b)) :
    sessionTriple (step caps sku_df choice s .loadSkuButton)
      = (some img, some b, some (pyStrip s.sku_input_text)) := by
  simp only [step, handle_load_sku]
  rw [if_pos hne, hl]
  rfl

theorem step_sku_failure (caps : Caps) (sku_df : DataFrame) (choice : String)
    (s : AppState)
    (hne : pyStrip s.sku_input_text ≠ "")
    (hl : load_image_from_sku caps (pyStrip s.sku_input_text) sku_df = none) :
    sessionTriple (step caps sku_df choice s .loadSkuButton) = (none, none, none) := by
  simp only [step, handle_load_sku]
  rw [if_pos hne, hl]
  rfl

theorem step_upload_failure (caps : Caps) (sku_df : DataFrame) (choice : String)
    (s : AppState) (fid : Nat) (c : Bytes)
    (hl : load_image_from_upload caps (some c) = none) :
    sessionTriple (step caps sku_df choice s (.uploadFile fid c)) = sessionTriple s := by
  simp only [step, handle_upload]
  split
  · rw [hl]
    rfl
  · rfl


theorem sessionInv_init : SessionInv (initial_session_state, ImageSource.noImage) := by
  refine ⟨?_, ?_, ?_⟩ <;> simp [initial_session_state]

theorem sessionInv_step (caps : Caps) (sku_df : DataFrame) (choice : String)
    (g : AppState × ImageSource) (e : Event) (h : SessionInv g) :
    SessionInv (gstep caps sku_df choice g e) := by
  obtain ⟨hA, hB, hC⟩ := h
  cases e with
  | uploadFile fid c =>
    by_cases hid : some fid ≠ g.1.last_uploaded_file_id
    · cases hl : load_image_from_upload caps (some c) with
      | none =>
        refine ⟨?_, ?_, ?_⟩ <;>
          simp_all [SessionInv, gstep, step, handle_upload, sourceStep, hl, hid]
      | some p =>
        refine ⟨?_, ?_, ?_⟩ <;>
          simp_all [SessionInv, gstep, step, handle_upload, sourceStep,
            update_session_data, hl, hid]
    · refine ⟨?_, ?_, ?_⟩ <;>
        simp_all [SessionInv, gstep, step, handle_upload, sourceStep, hid]
  | skuTextChanged t =>
    by_cases hcond : (g.1.current_image.isSome && g.1.current_sku.isNone) = true
    · refine ⟨?_, ?_, ?_⟩ <;>
        simp_all [SessionInv, gstep, step, sync_sku_input_text, sourceStep,
          clear_session_image_data, hcond]
    · have hstate : sync_sku_input_text g.1 t = { g.1 with sku_input_text := t } := by
        unfold sync_sku_input_text
        exact if_neg hcond
      have hsrc : sourceStep caps sku_df g (.skuTextChanged t) = g.2 := by
        simp only [sourceStep]
        exact if_neg hcond
      refine ⟨?_, ?_, ?_⟩
      all_goals simp only [gstep, step, hstate, hsrc]
      · exact hA
      · exact hB
      · exact hC
  | loadSkuButton =>
    by_cases hne : pyStrip g.1.sku_input_text ≠ ""
    · cases hl : load_image_from_sku caps (pyStrip g.1.sku_input_text) sku_df with
      | none =>
        refine ⟨?_, ?_, ?_⟩ <;>
          simp_all [SessionInv, gstep, step, handle_load_sku, sourceStep,
            clear_session_image_data, hne, hl]
      | some p =>
        refine ⟨?_, ?_, ?_⟩ <;>
          simp_all [SessionInv, gstep, step, handle_load_sku, sourceStep,
            clear_session_image_data, update_session_data, hne, hl]
    · refine ⟨?_, ?_, ?_⟩ <;>
        simp_all [SessionInv, gstep, step, handle_load_sku, sourceStep, hne]
  | removeBgButton =>
    have hs : (handle_remove_bg caps choice g.1).1 = g.1 :=
      remove_bg_preserves_state caps choice g.1
    refine ⟨?_, ?_, ?_⟩ <;>
      simp_all [SessionInv, gstep, step, sourceStep, hs]

theorem reachable_inv (caps : Caps) (sku_df : DataFrame) (choice : String)
    (g : AppState × ImageSource) (h : Reachable caps sku_df choice g) :
    SessionInv g := by
  induction h with
  | init => exact sessionInv_init
  | next hr ih => exact sessionInv_step _ _ _ _ _ ih


/-- C9: in every reachable session state the current SKU is non-absent only
when the image came from catalog resolution (tracked by the provenance ghost,
never after a direct upload), image and bytes are present together, every
step changes the (image, bytes, sku) triple only to itself, the cleared
triple, or a full (some, some, sku) triple, and every successful load
replaces the three fields together in one wholesale update. -/
theorem session_sku_provenance_spec (caps : Caps) (sku_df : DataFrame)
    (choice : String) (g : AppState × ImageSource)
    (hg : Reachable caps sku_df choice g) :
    (g.1.current_sku.isSome → g.2 = ImageSource.fromCatalog)
    ∧ (g.1.current_image.isSome ↔ g.1.current_image_bytes.isSome)
    ∧ (∀ e, sessionTriple (step caps sku_df choice g.1 e) = sessionTriple g.1
        ∨ sessionTriple (step caps sku_df choice g.1 e) = (none, none, none)
        ∨ ∃ img b k, sessionTriple (step caps sku_df choice g.1 e)
            = (some img, some b, k))
    ∧ (∀ fid c img b, some fid ≠ g.1.last_uploaded_file_id →
        load_image_from_upload caps (some c) = some (img, b) →
        sessionTriple (step caps sku_df choice g.1 (.uploadFile fid c))
          = (some img, some b, none))
    ∧ (∀ img b, pyStrip g.1.sku_input_text ≠ "" →
        load_image_from_sku caps (pyStrip g.1.sku_input_text) sku_df = some (img, b) →
        sessionTriple (step caps sku_df choice g.1 .loadSkuButton)
          = (some img, some b, some (pyStrip g.1.sku_input_text))) := by
  obtain ⟨hA, hB, hC⟩ := reachable_inv caps sku_df choice g hg
  refine ⟨hA, hB, ?_, ?_, ?_⟩
  · exact step_wholesale caps sku_df choice g.1
  · intro fid c img b hid hl
    exact step_upload_success caps sku_df choice g.1 fid c img b hid hl
  · intro img b hne hl
    exact step_sku_success caps sku_df choice g.1 img b hne hl

def reachedState1 : AppState × ImageSource :=
  gstep capsOk catalogDf EXPORT_FORMAT_PNG
    (initial_session_state, ImageSource.noImage) (.skuTextChanged "123")

def reachedState2 : AppState × ImageSource :=
  gstep capsOk catalogDf EXPORT_FORMAT_PNG reachedState1 .loadSkuButton

theorem session_sku_provenance_spec_witness :
    reachedState2.1.current_sku.isSome = true
    ∧ reachedState2.2 = ImageSource.fromCatalog :=
  ⟨by decide,
   (session_sku_provenance_spec capsOk catalogDf EXPORT_FORMAT_PNG reachedState2
      (Reachable.next (Reachable.next Reachable.init))).1 (by decide)⟩

/-- C1 counterexample: a failed upload attempt (the decoder rejects the new
file) leaves the previous image current, so the session state is NOT
discarded before the outcome of every load attempt is known. -/
theorem upload_clear_counterexample :
    load_image_from_upload capsDecodeFail (some [9]) = none
    ∧ stateAfterUpload.current_image = some demoImage
    ∧ (step capsDecodeFail emptyDefaultDf EXPORT_FORMAT_PNG stateAfterUpload
        (.uploadFile 2 [9])).current_image = some demoImage := by
  refine ⟨rfl, rfl, ?_⟩
  decide

/-- C1 (amended): SKU-button load attempts with non-empty trimmed input
discard the session image state before the outcome is known (a failed SKU
load leaves the state cleared, a successful one holds exactly the new load),
while upload attempts replace the state only on success: a failed upload
leaves the previous session triple unchanged. -/
theorem clear_before_load_spec (caps : Caps) (sku_df : DataFrame) (choice : String)
    (s : AppState) :
    (pyStrip s.sku_input_text ≠ "" →
      (load_image_from_sku caps (pyStrip s.sku_input_text) sku_df = none →
        sessionTriple (step caps sku_df choice s .loadSkuButton) = (none, none, none))
      ∧ (∀ img b,
          load_image_from_sku caps (pyStrip s.sku_input_text) sku_df = some (img, b) →
          sessionTriple (step caps sku_df choice s .loadSkuButton)
            = (some img, some b, some (pyStrip s.sku_input_text))))
    ∧ (∀ fid c, load_image_from_upload caps (some c) = none →
        sessionTriple (step caps sku_df choice s (.uploadFile fid c))
          = sessionTriple s) := by
  refine ⟨fun hne => ⟨?_, ?_⟩, ?_⟩
  · intro hl
    exact step_sku_failure caps sku_df choice s hne hl
  · intro img b hl
    exact step_sku_success caps sku_df choice s img b hne hl
  · intro fid c hl
    exact step_upload_failure caps sku_df choice s fid c hl

def stateSkuQuery : AppState := { stateAfterUpload with sku_input_text := "999" }

theorem clear_before_load_spec_witness :
    pyStrip stateSkuQuery.sku_input_text ≠ ""
    ∧ load_image_from_sku capsOk (pyStrip stateSkuQuery.sku_input_text) catalogDf = none
    ∧ sessionTriple (step capsOk catalogDf EXPORT_FORMAT_PNG stateSkuQuery .loadSkuButton)
        = (none, none, none) :=
  ⟨by decide, by decide,
   ((clear_before_load_spec capsOk catalogDf EXPORT_FORMAT_PNG stateSkuQuery).1
      (by decide)).1 (by decide)⟩

theorem zip_replicate_left {α β : Type} (a : α) :
    ∀ (l : List β) (n : Nat), l.length ≤ n →
      (List.replicate n a).zip l = l.map (fun b => (a, b))
  | [], n, _ => by simp
  | b :: bs, n + 1, h => by
    simp only [List.replicate, List.zip_cons_cons, List.map_cons]
    rw [zip_replicate_left a bs n (by simpa using h)]

/-- C2: preview scaling with the default maximum height of 550 returns an
image with the same width and height when the original height is at most 550,
and otherwise an image of height exactly 550 and width equal to
floor(original width * 550 / original height). -/
theorem resize_image_spec (resample : PILImage → Nat → Nat → List RGBA)
    (img : PILImage) :
    MAX_IMAGE_HEIGHT = 550
    ∧ (img.height ≤ 550 →
        (resize_image resample img).width = img.width
        ∧ (resize_image resample img).height = img.height)
    ∧ (img.height > 550 →
        (resize_image resample img).height = 550
        ∧ (resize_image resample img).width = img.width * 550 / img.height) := by
  refine ⟨rfl, ?_, ?_⟩
  · intro h
    have hnot : ¬ (img.size.2 > MAX_IMAGE_HEIGHT) := by
      simp only [PILImage.size, MAX_IMAGE_HEIGHT]
      omega
    simp [resize_image, hnot]
  · intro h
    have hgt : 550 < img.height := h
    simp [resize_image, PILImage.size, MAX_IMAGE_HEIGHT, PILImage.resizeTo, hgt]

theorem resize_image_spec_witness :
    ((400 : Nat) ≤ 550
      ∧ (resize_image (fun i _ _ => i.pixels) ⟨300, 400, []⟩).width = 300
      ∧ (resize_image (fun i _ _ => i.pixels) ⟨300, 400, []⟩).height = 400)
    ∧ ((800 : Nat) > 550
      ∧ (resize_image (fun i _ _ => i.pixels) ⟨600, 800, []⟩).height = 550
      ∧ (resize_image (fun i _ _ => i.pixels) ⟨600, 800, []⟩).width = 600 * 550 / 800) := by
  refine ⟨⟨by decide, ?_⟩, ⟨by decide, ?_⟩⟩
  · exact (resize_image_spec (fun i _ _ => i.pixels) ⟨300, 400, []⟩).2.1 (by decide)
  · exact (resize_image_spec (fun i _ _ => i.pixels) ⟨600, 800, []⟩).2.2 (by decide)

/-- C7: for every catalog file whose normalized header lacks a sku column,
the loader returns the empty default table and emits exactly one error
message; it returns normally (the embedding is a total function), so the
process does not terminate. -/
theorem load_sku_data_missing_sku_spec (path : String) (raw : DataFrame)
    (h : "sku" ∉ (normalize_columns raw).columns) :
    (load_sku_data path (.ok raw)).1 = emptyDefaultDf
    ∧ (load_sku_data path (.ok raw)).1.rows = []
    ∧ (load_sku_data path (.ok raw)).2.length = 1 := by
  simp [load_sku_data, h, emptyDefaultDf]

theorem load_sku_data_missing_sku_witness :
    "sku" ∉ (normalize_columns ⟨["bild", "hintergrundbild"], []⟩).columns
    ∧ (load_sku_data "p.csv" (.ok ⟨["bild", "hintergrundbild"], []⟩)).1 = emptyDefaultDf
    ∧ (load_sku_data "p.csv" (.ok ⟨["bild", "hintergrundbild"], []⟩)).2.length = 1 :=
  ⟨by decide,
   (load_sku_data_missing_sku_spec "p.csv" ⟨["bild", "hintergrundbild"], []⟩ (by decide)).1,
   (load_sku_data_missing_sku_spec "p.csv" ⟨["bild", "hintergrundbild"], []⟩ (by decide)).2.2⟩

/-- C3: SKU lookup compares the trimmed user input against the stored SKU
(trimmed at catalog load) by exact string equality: membership in the matched
rows holds exactly when the stored cell equals the trimmed input; input
"123 " matches a stored "123" while "1234" and the case-folded "ABC" do not. -/
theorem sku_lookup_exact_spec :
    (∀ (sku_df : DataFrame) (input : String) (row : List Cell),
      row ∈ sku_matches sku_df (pyStrip input)
        ↔ row ∈ sku_df.rows ∧ sku_df.cellAt row "sku" = some (pyStrip input))
    ∧ pyStrip "123 " = "123"
    ∧ catalogDf.getCol "sku" = [some "123", some "abc"]
    ∧ sku_matches catalogDf (pyStrip "123 ") = [[some "123", some "http://x/a.png", none]]
    ∧ sku_matches catalogDf (pyStrip "1234") = []
    ∧ sku_matches catalogDf "ABC" = [] := by
  refine ⟨?_, by decide, by decide, by decide, by decide, by decide⟩
  intro sku_df input row
  simp [sku_matches, List.mem_filter]

/-- C5: background removal requires non-empty bytes (empty bytes produce no
image), returns no image when the external removal capability fails or its
result does not decode, decodes the removal result as RGBA on success, and
the Remove Background handler never changes the session state. -/
theorem background_removal_spec (caps : Caps) (choice : String) (s : AppState)
    (b rb : Bytes) :
    process_background_removal caps [] = none
    ∧ (∀ e, caps.removeBg b = .error e → process_background_removal caps b = none)
    ∧ (caps.removeBg b = .ok rb → caps.decodeRGBA rb = none →
        process_background_removal caps b = none)
    ∧ (b.isEmpty = false → caps.removeBg b = .ok rb →
        process_background_removal caps b = caps.decodeRGBA rb)
    ∧ (handle_remove_bg caps choice s).1 = s := by
  refine ⟨rfl, ?_, ?_, ?_, remove_bg_preserves_state caps choice s⟩
  · intro e he
    by_cases hb : b.isEmpty
    · simp [process_background_removal, hb]
    · simp [process_background_removal, hb, he]
  · intro hok hdec
    by_cases hb : b.isEmpty
    · simp [process_background_removal, hb]
    · simp [process_background_removal, hb, hok, hdec]
  · intro hb hok
    simp [process_background_removal, hb, hok]

theorem background_removal_spec_witness :
    process_background_removal capsOk [] = none
    ∧ ([0] : Bytes).isEmpty = false
    ∧ process_background_removal capsOk [0] = capsOk.decodeRGBA [0]
    ∧ (handle_remove_bg capsOk EXPORT_FORMAT_PNG stateAfterUpload).1 = stateAfterUpload :=
  ⟨(background_removal_spec capsOk EXPORT_FORMAT_PNG stateAfterUpload [0] [0]).1,
   by decide,
   (background_removal_spec capsOk EXPORT_FORMAT_PNG stateAfterUpload [0] [0]).2.2.2.1
     (by decide) rfl,
   (background_removal_spec capsOk EXPORT_FORMAT_PNG stateAfterUpload [0] [0]).2.2.2.2⟩

/-- C6: exporting with the PNG choice encodes the RGBA image as-is with mime
image/png; exporting with the JPEG choice composites the image onto an opaque
white RGB canvas of identical dimensions using the image's own alpha channel
as the blend mask and encodes as JPEG (mime image/jpeg), whose pixel type
carries no alpha channel: fully opaque pixels keep their color and fully
transparent pixels become white. -/
theorem export_processed_spec (img : PILImage)
    (hlen : img.pixels.length = img.width * img.height) :
    (exportProcessed img EXPORT_FORMAT_PNG).data = .png img
    ∧ (exportProcessed img EXPORT_FORMAT_PNG).mime = "image/png"
    ∧ (exportProcessed img EXPORT_FORMAT_JPEG).mime = "image/jpeg"
    ∧ ∃ out : RGBImage,
        (exportProcessed img EXPORT_FORMAT_JPEG).data = .jpeg out
        ∧ out.width = img.width ∧ out.height = img.height
        ∧ out.pixels = img.pixels.map (fun p =>
            { r := blendChannel p.r 255 p.a,
              g := blendChannel p.g 255 p.a,
              b := blendChannel p.b 255 p.a })
        ∧ (∀ i p, img.pixels.get? i = some p →
            (p.a = 255 → out.pixels.get? i = some ⟨p.r, p.g, p.b⟩)
            ∧ (p.a = 0 → out.pixels.get? i = some ⟨255, 255, 255⟩)) := by
  have hpng : ¬ (EXPORT_FORMAT_PNG = EXPORT_FORMAT_JPEG) := by decide
  refine ⟨by simp [exportProcessed, hpng], by simp [exportProcessed, hpng],
    by simp [exportProcessed], ?_⟩
  refine ⟨pasteWithAlpha (newWhiteRGB img.size.1 img.size.2) img, ?_, rfl, rfl, ?_, ?_⟩
  · simp [exportProcessed]
  · show ((List.replicate (img.width * img.height) (⟨255, 255, 255⟩ : RGB)).zip
        img.pixels).map _ = _
    rw [zip_replicate_left _ img.pixels _ (le_of_eq hlen), List.map_map]
    rfl
  · intro i p hp
    have hpix : (pasteWithAlpha (newWhiteRGB img.size.1 img.size.2) img).pixels
        = img.pixels.map (fun p =>
            ({ r := blendChannel p.r 255 p.a,
               g := blendChannel p.g 255 p.a,
               b := blendChannel p.b 255 p.a } : RGB)) := by
      show ((List.replicate (img.width * img.height) (⟨255, 255, 255⟩ : RGB)).zip
          img.pixels).map _ = _
      rw [zip_replicate_left _ img.pixels _ (le_of_eq hlen), List.map_map]
      rfl
    constructor
    · intro ha
      rw [hpix, List.get?_map, hp]
      simp [blendChannel, ha, Nat.mul_div_cancel]
    · intro ha
      rw [hpix, List.get?_map, hp]
      simp [blendChannel, ha]

theorem load_image_from_sku_spec_witness :
    sku_matches catalogDf "123" = [[some "123", some "http://x/a.png", none]]
    ∧ load_image_from_sku capsOk "123" catalogDf = some (demoImage, [1]) := by
  refine ⟨by decide, ?_⟩
  exact ((load_image_from_sku_spec capsOk catalogDf "123").2.2.2.1
      [some "123", some "http://x/a.png", none] [] (by decide) (by decide)).2.2.2
      "http://x/a.png" [1] demoImage (by decide) (by decide) rfl rfl

def exportDemoImage : PILImage :=
  { width := 1, height := 2, pixels := [⟨10, 20, 30, 255⟩, ⟨1, 2, 3, 0⟩] }

theorem export_processed_spec_witness :
    exportDemoImage.pixels.length = exportDemoImage.width * exportDemoImage.height
    ∧ (exportProcessed exportDemoImage EXPORT_FORMAT_PNG).data = .png exportDemoImage
    ∧ (exportProcessed exportDemoImage EXPORT_FORMAT_JPEG).mime = "image/jpeg" :=
  ⟨by decide, (export_processed_spec exportDemoImage (by decide)).1,
   (export_processed_spec exportDemoImage (by decide)).2.2.1⟩

def fallbackDemoDf : DataFrame :=
  { columns := ["sku", "bild", "hintergrundbild"], rows := [] }

theorem fallback_rename_spec_witness :
    "image_url" ∉ fallbackDemoDf.columns
    ∧ FALLBACK_IMAGE_URL_COLUMN ∈ fallbackDemoDf.columns
    ∧ "image_url" ∈ (apply_fallback_renames fallbackDemoDf).columns
    ∧ FALLBACK_IMAGE_URL_COLUMN ∉ (apply_fallback_renames fallbackDemoDf).columns := by
  refine ⟨by decide, by decide, ?_, ?_⟩
  · exact ((fallback_rename_spec fallbackDemoDf).1 (by decide) (by decide)).1
  · exact ((fallback_rename_spec fallbackDemoDf).1 (by decide) (by decide)).2.1

theorem colIndex_lt_length {cols : List String} {name : String} {i : Nat}
    (h : colIndex cols name = some i) : i < cols.length := by
  induction cols generalizing i with
  | nil => exact absurd h (by simp [colIndex])
  | cons c rest ih =>
    by_cases hc : c = name
    · simp only [colIndex, if_pos hc, Option.some.injEq] at h
      subst h
      simp
    · simp only [colIndex, if_neg hc, Option.map_eq_some'] at h
      obtain ⟨j, hj, rfl⟩ := h
      have := ih hj
      simp only [List.length_cons]
      omega

theorem colIndex_append_new (cols : List String) (name : String) (h : name ∉ cols) :
    colIndex (cols ++ [name]) name = some cols.length := by
  induction cols with
  | nil => simp [colIndex]
  | cons c rest ih =>
    have hc : ¬ (c = name) := fun hh => h (hh ▸ List.mem_cons_self c rest)
    have hrest : name ∉ rest := fun hh => h (List.mem_cons_of_mem c hh)
    simp [colIndex, hc, ih hrest]

theorem colIndex_append_old (cols extra : List String) (name : String) (i : Nat)
    (h : colIndex cols name = some i) :
    colIndex (cols ++ extra) name = some i := by
  induction cols generalizing i with
  | nil => exact absurd h (by simp [colIndex])
  | cons c rest ih =>
    by_cases hc : c = name
    · simp [colIndex, hc] at h ⊢
      exact h
    · simp only [colIndex, if_neg hc, Option.map_eq_some'] at h
      obtain ⟨j, hj, rfl⟩ := h
      rw [List.cons_append]
      simp only [colIndex, if_neg hc]
      rw [ih j hj]
      rfl

theorem setCol_wf (df : DataFrame) (name : String) (vals : List Cell)
    (h : df.WellFormed) : (df.setCol name vals).WellFormed := by
  unfold DataFrame.setCol
  cases hidx : colIndex df.columns name with
  | some i =>
    intro r hr
    simp only [List.mem_map] at hr
    obtain ⟨p, hp, rfl⟩ := hr
    have hmem := List.of_mem_zip hp
    simp only [List.length_set]
    exact h p.1 hmem.1
  | none =>
    intro r hr
    simp only [List.mem_map] at hr
    obtain ⟨p, hp, rfl⟩ := hr
    have hmem := List.of_mem_zip hp
    simp only [List.length_append, List.length_cons, List.length_nil]
    have := h p.1 hmem.1
    simp [this]

theorem rows_setCol_missing (df : DataFrame) (name : String)
    (hmiss : name ∉ df.columns) :
    (df.setCol name (df.rows.map (fun _ => none))).rows
        = df.rows.map (fun r => r ++ [none])
    ∧ (df.setCol name (df.rows.map (fun _ => none))).columns
        = df.columns ++ [name] := by
  unfold DataFrame.setCol
  rw [(colIndex_eq_none_iff df.columns name).mpr hmiss]
  constructor
  · show ((df.rows.zip (df.rows.map (fun _ => none))).map (fun p => p.1 ++ [p.2])) = _
    have hz : df.rows.zip (df.rows.map (fun _ => (none : Cell)))
        = df.rows.map (fun r => (r, (none : Cell))) := by
      have hzm := List.zip_map' id (fun _ => (none : Cell)) df.rows
      rw [List.map_id] at hzm
      exact hzm
    rw [hz, List.map_map]
    rfl
  · rfl

theorem add_missing_col_fires (d : DataFrame) (col : String) (h : col ∉ d.columns) :
    add_missing_col d col = d.setCol col (d.rows.map (fun _ => none)) := by
  simp [add_missing_col, h]

theorem add_missing_col_skips (d : DataFrame) (col : String) (h : col ∈ d.columns) :
    add_missing_col d col = d := by
  simp [add_missing_col, h]

theorem add_missing_col_wf (d : DataFrame) (col : String) (h : d.WellFormed) :
    (add_missing_col d col).WellFormed := by
  unfold add_missing_col
  split
  · exact setCol_wf d col _ h
  · exact h

theorem add_missing_col_mem_self (d : DataFrame) (col : String) :
    col ∈ (add_missing_col d col).columns := by
  by_cases h : col ∈ d.columns
  · rw [add_missing_col_skips d col h]
    exact h
  · rw [add_missing_col_fires d col h, (rows_setCol_missing d col h).2]
    exact List.mem_append_right _ (List.mem_singleton.mpr rfl)

theorem add_missing_col_mem_other (d : DataFrame) (col q : String) (hq : q ≠ col) :
    q ∈ (add_missing_col d col).columns ↔ q ∈ d.columns := by
  by_cases h : col ∈ d.columns
  · rw [add_missing_col_skips d col h]
  · rw [add_missing_col_fires d col h, (rows_setCol_missing d col h).2]
    simp [List.mem_append, hq]

theorem getCol_add_missing_new (d : DataFrame) (col : String)
    (hmiss : col ∉ d.columns) (hWF : d.WellFormed) :
    ∀ c ∈ (add_missing_col d col).getCol col, c = none := by
  rw [add_missing_col_fires d col hmiss]
  intro c hc
  obtain ⟨hrows, hcols⟩ := rows_setCol_missing d col hmiss
  unfold DataFrame.getCol at hc
  rw [hrows] at hc
  simp only [List.mem_map] at hc
  obtain ⟨r2, hr2, rfl⟩ := hc
  obtain ⟨r, hr, rfl⟩ := hr2
  unfold DataFrame.cellAt
  rw [hcols, colIndex_append_new d.columns col hmiss]
  have hlen : r.length = d.columns.length := hWF r hr
  have hsome : (r ++ [(none : Cell)]).get? d.columns.length = some none := by
    rw [← hlen]
    exact List.get?_concat_length r none
  show ((r ++ [(none : Cell)]).get? d.columns.length).getD none = none
  rw [hsome]
  rfl

theorem getCol_add_missing_other (d : DataFrame) (col q : String)
    (hq : q ∈ d.columns) (hWF : d.WellFormed) :
    (add_missing_col d col).getCol q = d.getCol q := by
  by_cases h : col ∈ d.columns
  · rw [add_missing_col_skips d col h]
  · have hqcol : q ≠ col := fun hh => h (hh ▸ hq)
    rw [add_missing_col_fires d col h]
    obtain ⟨hrows, hcols⟩ := rows_setCol_missing d col h
    unfold DataFrame.getCol
    rw [hrows]
    have hidx : ∃ i, colIndex d.columns q = some i := by
      cases hci : colIndex d.columns q with
      | none => exact absurd ((colIndex_eq_none_iff d.columns q).mp hci) (by simp [hq])
      | some i => exact ⟨i, rfl⟩
    obtain ⟨i, hi⟩ := hidx
    rw [List.map_map]
    apply List.map_congr_left
    intro r hr
    show (DataFrame.cellAt _ (r ++ [none]) q) = d.cellAt r q
    unfold DataFrame.cellAt
    rw [hcols, colIndex_append_old d.columns [col] q i hi, hi]
    have hlen : i < r.length := by
      rw [hWF r hr]
      exact colIndex_lt_length hi
    show ((r ++ [none]).get? i).getD none = (r.get? i).getD none
    rw [List.get?_append hlen]

theorem normalize_columns_wf (df : DataFrame) (h : df.WellFormed) :
    (normalize_columns df).WellFormed := by
  intro r hr
  simp only [normalize_columns, List.length_map]
  exact h r hr

theorem renameCol_wf (df : DataFrame) (o n : String) (h : df.WellFormed) :
    (df.renameCol o n).WellFormed := by
  intro r hr
  simp only [DataFrame.renameCol, List.length_map]
  exact h r hr

theorem rename_image_fallback_wf (df : DataFrame) (h : df.WellFormed) :
    (rename_image_fallback df).WellFormed := by
  unfold rename_image_fallback
  split
  · exact renameCol_wf df _ _ h
  · exact h

theorem rename_background_fallback_wf (df : DataFrame) (h : df.WellFormed) :
    (rename_background_fallback df).WellFormed := by
  unfold rename_background_fallback
  split
  · exact renameCol_wf df _ _ h
  · exact h

theorem strip_sku_column_wf (df : DataFrame) (h : df.WellFormed) :
    (strip_sku_column df).WellFormed :=
  setCol_wf df "sku" _ h

theorem getCol_selectCols_default (d : DataFrame) (q : String)
    (hq : q ∈ DEFAULT_EXPECTED_COLUMNS) :
    (d.selectCols DEFAULT_EXPECTED_COLUMNS).getCol q = d.getCol q := by
  simp only [DEFAULT_EXPECTED_COLUMNS, List.mem_cons, List.mem_singleton,
    List.not_mem_nil, or_false] at hq
  rcases hq with rfl | rfl | rfl
  all_goals
    simp [DataFrame.selectCols, DataFrame.getCol, DataFrame.cellAt, colIndex,
      DEFAULT_EXPECTED_COLUMNS]

theorem fill_missing_eq (df : DataFrame) :
    fill_missing_expected df
      = add_missing_col (add_missing_col (add_missing_col df "sku") "image_url")
          "background_image_url" := by
  simp [fill_missing_expected, DEFAULT_EXPECTED_COLUMNS, List.foldl]

/-- C10: on every execution path (successful load, missing sku column,
missing file, parse exception) the loader returns a table whose columns are
exactly sku, image_url, background_image_url in that order, and any expected
column still absent after the renames is filled with the null value in every
row. -/
theorem load_sku_data_shape_spec (path : String) (r : CSVReadResult) :
    (load_sku_data path r).1.columns = DEFAULT_EXPECTED_COLUMNS
    ∧ (∀ raw, r = .ok raw → raw.WellFormed →
        ∀ col ∈ DEFAULT_EXPECTED_COLUMNS,
          col ∉ (apply_fallback_renames (strip_sku_column (normalize_columns raw))).columns →
          ∀ c ∈ (load_sku_data path r).1.getCol col, c = none) := by
  constructor
  · cases r with
    | ok raw =>
      simp only [load_sku_data]
      split
      · rfl
      · rfl
    | fileNotFound => rfl
    | parseError e => rfl
  · intro raw hr hWF col hcol hmiss c hc
    subst hr
    by_cases hsku : "sku" ∈ (normalize_columns raw).columns
    · have hload : (load_sku_data path (.ok raw)).1
          = (fill_missing_expected (apply_fallback_renames (strip_sku_column
              (normalize_columns raw)))).selectCols DEFAULT_EXPECTED_COLUMNS := by
        simp [load_sku_data, hsku]
      rw [hload, getCol_selectCols_default _ col hcol] at hc
      set df4 := apply_fallback_renames (strip_sku_column (normalize_columns raw))
        with hdf4
      have hWF4 : df4.WellFormed :=
        rename_background_fallback_wf _ (rename_image_fallback_wf _
          (strip_sku_column_wf _ (normalize_columns_wf _ hWF)))
      rw [fill_missing_eq] at hc
      have hcol3 : col = "sku" ∨ col = "image_url" ∨ col = "background_image_url" := by
        simpa [DEFAULT_EXPECTED_COLUMNS] using hcol
      rcases hcol3 with rfl | rfl | rfl
      · have h5 := getCol_add_missing_new df4 "sku" hmiss hWF4
        have hWF5 := add_missing_col_wf df4 "sku" hWF4
        have hmem5 : "sku" ∈ (add_missing_col df4 "sku").columns :=
          add_missing_col_mem_self df4 "sku"
        have h6 : (add_missing_col (add_missing_col df4 "sku") "image_url").getCol "sku"
            = (add_missing_col df4 "sku").getCol "sku" :=
          getCol_add_missing_other _ "image_url" "sku" hmem5 hWF5
        have hWF6 := add_missing_col_wf _ "image_url" hWF5
        have hmem6 : "sku"
            ∈ (add_missing_col (add_missing_col df4 "sku") "image_url").columns := by
          rw [add_missing_col_mem_other _ _ _ (by decide)]
          exact hmem5
        have h7 : (add_missing_col (add_missing_col (add_missing_col df4 "sku")
              "image_url") "background_image_url").getCol "sku"
            = (add_missing_col (add_missing_col df4 "sku") "image_url").getCol "sku" :=
          getCol_add_missing_other _ "background_image_url" "sku" hmem6 hWF6
        rw [h7, h6] at hc
        exact h5 c hc
      · have hmiss5 : "image_url" ∉ (add_missing_col df4 "sku").columns := by
          rw [add_missing_col_mem_other _ _ _ (by decide)]
          exact hmiss
        have hWF5 := add_missing_col_wf df4 "sku" hWF4
        have h6 := getCol_add_missing_new _ "image_url" hmiss5 hWF5
        have hWF6 := add_missing_col_wf _ "image_url" hWF5
        have hmem6 : "image_url"
            ∈ (add_missing_col (add_missing_col df4 "sku") "image_url").columns :=
          add_missing_col_mem_self _ "image_url"
        have h7 : (add_missing_col (add_missing_col (add_missing_col df4 "sku")
              "image_url") "background_image_url").getCol "image_url"
            = (add_missing_col (add_missing_col df4 "sku") "image_url").getCol
                "image_url" :=
          getCol_add_missing_other _ "background_image_url" "image_url" hmem6 hWF6
        rw [h7] at hc
        exact h6 c hc
      · have hmiss5 : "background_image_url" ∉ (add_missing_col df4 "sku").columns := by
          rw [add_missing_col_mem_other _ _ _ (by decide)]
          exact hmiss
        have hmiss6 : "background_image_url"
            ∉ (add_missing_col (add_missing_col df4 "sku") "image_url").columns := by
          rw [add_missing_col_mem_other _ _ _ (by decide)]
          exact hmiss5
        have hWF5 := add_missing_col_wf df4 "sku" hWF4
        have hWF6 := add_missing_col_wf _ "image_url" hWF5
        have h7 := getCol_add_missing_new _ "background_image_url" hmiss6 hWF6
        exact h7 c hc
    · have hload : (load_sku_data path (.ok raw)).1 = emptyDefaultDf := by
        simp [load_sku_data, hsku]
      rw [hload] at hc
      simp [emptyDefaultDf, DataFrame.getCol] at hc

theorem load_sku_data_shape_spec_witness :
    catalogRaw.WellFormed
    ∧ "background_image_url" ∈ DEFAULT_EXPECTED_COLUMNS
    ∧ "background_image_url"
        ∉ (apply_fallback_renames (strip_sku_column (normalize_columns catalogRaw))).columns
    ∧ (∀ c ∈ catalogDf.getCol "background_image_url", c = none)
    ∧ catalogDf.columns = DEFAULT_EXPECTED_COLUMNS := by
  refine ⟨?_, by decide, by decide, ?_, ?_⟩
  · intro r hr
    fin_cases hr <;> rfl
  · exact (load_sku_data_shape_spec "banner_bilder_v1.csv" (.ok catalogRaw)).2
      catalogRaw rfl (by intro r hr; fin_cases hr <;> rfl) "background_image_url"
      (by decide) (by decide)
  · exact (load_sku_data_shape_spec "banner_bilder_v1.csv" (.ok catalogRaw)).1

end BgClean
